import Mathlib

/-!
Shallow embedding of the netmetr client core (turris-cz/netmetr-client):
the protocol-selection orchestrator (`netmetr.py`), the control-server
session (`control.py`) and the measurement runner (`measurement.py`),
together with theorems checking the natural-language specification
against the embedded code.
-/

namespace Netmetr

/-- `Protocol` enum from `protocols.py`. -/
inductive Protocol where
  | IPv4
  | IPv6
deriving DecidableEq, Repr

/-- `Mode` enum from `protocols.py` (protocol selection policy). -/
inductive Mode where
  | only_4
  | only_6
  | prefer_4
  | prefer_6
  | both
deriving DecidableEq, Repr

/-- Outcome of one `_measure_protocol(proto)` attempt, abstracting the
body of the `try` block in `Netmetr.measure` (`netmetr.py` lines 81-89):
either a successful simple-result report of abstract type `α`, or one of
the two caught exception kinds. -/
inductive AttemptOutcome (α : Type) where
  | success : α → AttemptOutcome α
  | ctrlErr : AttemptOutcome α
  | measErr : AttemptOutcome α
deriving DecidableEq, Repr

/-- Entry stored in the `result` dictionary of `Netmetr.measure`:
the report on success, `{"error": "Not available"}` on
`ControlServerError`, `{"error": "Failed"}` on `MeasurementError`. -/
inductive ResultEntry (α : Type) where
  | report : α → ResultEntry α
  | notAvailable : ResultEntry α
  | failed : ResultEntry α
deriving DecidableEq, Repr

/-- How one attempt is recorded in the result map
(`netmetr.py` lines 82, 86, 89). -/
def entryOf {α : Type} : AttemptOutcome α → ResultEntry α
  | .success r => .report r
  | .ctrlErr => .notAvailable
  | .measErr => .failed

/-- Whether an attempt sets the `measured` flag
(`netmetr.py` line 83: only a non-raising attempt does). -/
def isSuccess {α : Type} : AttemptOutcome α → Bool
  | .success _ => true
  | _ => false

/-- The `proto_map` dictionary of `Netmetr.measure`
(`netmetr.py` lines 75-78): modes under which each protocol family
is a direct candidate. -/
def proto_map (p : Protocol) : List Mode :=
  match p with
  | .IPv4 => [.only_4, .both, .prefer_4]
  | .IPv6 => [.only_6, .both, .prefer_6]

/-- `Netmetr.measure` (`netmetr.py` lines 73-107).  The per-protocol
attempt `self._measure_protocol(proto)` is abstracted by the environment
`env`; no protocol is ever attempted twice in one call, so a function of
the protocol is fully general.  The result dictionary is embedded as an
association list in insertion order (`proto_map` iterates IPv4 then
IPv6, as Python dicts preserve insertion order). -/
def measure {α : Type} (protocol_mode : Mode) (env : Protocol → AttemptOutcome α) :
    List (Protocol × ResultEntry α) :=
  let step := fun (acc : List (Protocol × ResultEntry α) × Bool) (proto : Protocol) =>
    if protocol_mode ∈ proto_map proto then
      (acc.1 ++ [(proto, entryOf (env proto))], acc.2 || isSuccess (env proto))
    else acc
  let folded := [Protocol.IPv4, Protocol.IPv6].foldl step ([], false)
  let result := folded.1
  let measured := folded.2
  if measured then
    result
  else
    let proto : Option Protocol :=
      if protocol_mode = .prefer_4 then some .IPv6
      else if protocol_mode = .prefer_6 then some .IPv4
      else none
    match proto with
    | none => result
    | some p => result ++ [(p, entryOf (env p))]

/-- Error kinds raised by the embedded code.  `controlServer`,
`measurement`, `config` and `programming` embed the exception classes
`ControlServerError`, `MeasurementError`, `ConfigError` and
`ProgrammingError`; `nameErr`, `indexErr` and `jsonDecode` embed the
plain Python exceptions `NameError`, `IndexError` and
`json.JSONDecodeError` escaping uncaught. -/
inductive Err where
  | controlServer
  | measurement
  | config
  | programming
  | nameErr
  | indexErr
  | jsonDecode
deriving DecidableEq, Repr

/-- Python truthiness of an optional string field: `None` and the empty
string are falsy (`control.py` lines 58-60 test `if new_uuid` and
`if not self.uuid`). -/
def truthy : Option String → Bool
  | none => false
  | some s => s ≠ ""

/-- The fields of the `settings` response consumed by
`ControlServer._load_uuid` (`control.py` lines 57-63) together with the
top-level `error` field checked by `send_request` (line 182):
`settings[0].uuid`, `settings[0].urls.control_ipv4_only`,
`settings[0].urls.control_ipv6_only`.  Absent JSON keys are `none`. -/
structure SettingsResp where
  uuid : Option String
  urls_ipv4 : Option String
  urls_ipv6 : Option String
  error : Option String
deriving DecidableEq, Repr

/-- The transport outcome of one HTTP exchange: either the transport
fails (connection error, TLS failure, HTTP/URL error — `control.py`
lines 167-179) or a JSON payload arrives. -/
inductive Transport where
  | fail
  | ok : SettingsResp → Transport
deriving DecidableEq, Repr

/-- `ControlServer.send_request` (`control.py` lines 154-187): transport
failure raises `ControlServerError`, as does a payload whose `error`
field is non-empty (line 182: `if rep.get("error")`). -/
def send_request : Transport → Except Err SettingsResp
  | .fail => .error .controlServer
  | .ok rep => if truthy rep.error then .error .controlServer else .ok rep

/-- `ControlServer._load_uuid` (`control.py` lines 38-63), the identity
bootstrap.  Input: the caller-supplied uuid (`none` embeds both an
omitted and an empty uuid) and the transport outcome of the `settings`
exchange.  Output on success: the resulting session uuid and the two
optional family-specific endpoint overrides learned from the response.
The code replaces the uuid only when the response carries a truthy one
(line 58) and raises only when the resulting uuid is still falsy
(line 60). -/
def load_uuid (old_uuid : Option String) (t : Transport) :
    Except Err (String × Option String × Option String) :=
  match send_request t with
  | .error e => .error e
  | .ok rep =>
    let new_uuid := rep.uuid
    let uuid := if truthy new_uuid then new_uuid else old_uuid
    if truthy uuid then
      .ok (uuid.getD "", rep.urls_ipv4, rep.urls_ipv6)
    else
      .error .controlServer

/-- The endpoint-related state of a `ControlServer` object
(`control.py` lines 22-28): the default dual-stack host `url_dual`, the
two optional family overrides, and the active host `address`.  The
constructor sets `address = url_dual`; `use_proto` may set it to an
absent override, hence `Option String`. -/
structure CSState where
  url_dual : String
  url_ipv4 : Option String
  url_ipv6 : Option String
  address : Option String
deriving DecidableEq, Repr

/-- The family override chosen by `use_proto` (`control.py`
lines 68-71): `url_ipv4` for IPv4, otherwise `url_ipv6`. -/
def proto_url (s : CSState) : Protocol → Option String
  | .IPv4 => s.url_ipv4
  | .IPv6 => s.url_ipv6

/-- Entering the `use_proto` scope (`control.py` lines 68-71): rebind
the active host to the family override, whatever its value. -/
def enter_proto (proto : Protocol) (s : CSState) : CSState :=
  { s with address := proto_url s proto }

/-- The `finally` block of `use_proto` (`control.py` lines 73-74):
rebind the active host to the dual-stack default. -/
def restore_proto (s : CSState) : CSState :=
  { s with address := some s.url_dual }

/-- `ControlServer.use_proto` (`control.py` lines 65-74), a context
manager.  The enclosed operations are abstracted by `body`, a state
transformer that may return normally or raise; the `finally` block runs
on both exit paths. -/
def use_proto {α ε : Type} (proto : Protocol)
    (body : CSState → Except (ε × CSState) (α × CSState)) (s : CSState) :
    Except (ε × CSState) (α × CSState) :=
  match body (enter_proto proto s) with
  | .ok (a, s2) => .ok (a, restore_proto s2)
  | .error (e, s2) => .error (e, restore_proto s2)

/-- The state in which a computation left the `ControlServer` object,
on either exit path. -/
def exitState {α ε : Type} : Except (ε × CSState) (α × CSState) → CSState
  | .ok (_, s) => s
  | .error (_, s) => s

/-- Python `str()` of the value interpolated by `"{}".format(...)`:
`None` prints as the literal string `None`. -/
def pyStr : Option String → String
  | none => "None"
  | some s => s

/-- `ControlServer.create_url` (`control.py` lines 189-196) with empty
`query_params`, the form used by every request issued inside a
`use_proto` scope (`testRequest`, `result`). -/
def create_url (s : CSState) (use_tls : Bool) (path : String) : String :=
  (if use_tls then "https" else "http") ++ "://" ++ pyStr s.address
    ++ "/RMBTControlServer/" ++ path

/-- One ping probe as seen by `PingMeasurement.measure`
(`measurement.py` lines 126-142): the subprocess exits non-zero
(`procFail`, the `process.wait() == 0` test at line 131 fails), or its
output parses to a round-trip time already converted to integer
nanoseconds (`parsed`), or the `time=`/` ms` extraction at lines
133-139 throws (`unparsable`). -/
inductive Probe where
  | procFail
  | parsed : Int → Probe
  | unparsable
deriving DecidableEq, Repr

/-- The probe loop of `PingMeasurement.measure` (`measurement.py` lines
126-142): zero-exit probes whose output parses contribute their value
to `ping_values`; a non-zero-exit probe contributes nothing; a parse
failure raises `MeasurementError` at once (line 141). -/
def collect_pings : List Probe → Except Err (List Int)
  | [] => .ok []
  | .procFail :: rest => collect_pings rest
  | .unparsable :: _ => .error .measurement
  | .parsed v :: rest =>
    match collect_pings rest with
    | .error e => .error e
    | .ok vs => .ok (v :: vs)

/-- `PingMeasurement.measure` (`measurement.py` lines 119-146): run the
probe loop, then return `min(ping_values)`; `min` of an empty sequence
throws, re-raised as `MeasurementError` (lines 143-146). -/
def ping_measure (probes : List Probe) : Except Err Int :=
  match collect_pings probes with
  | .error e => .error e
  | .ok [] => .error .measurement
  | .ok (v :: vs) => .ok (vs.foldl min v)

/-- The round-trip times of the probes that parse, in probe order. -/
def parsedVals (probes : List Probe) : List Int :=
  probes.filterMap (fun p => match p with | .parsed v => some v | _ => none)

/-- One entry of a thread's `time_series` in the flow artifact
(`measurement.py` lines 258-266): timestamp `t` in nanoseconds and byte
count `b`. -/
structure FlowSample where
  t : Int
  b : Int
deriving DecidableEq, Repr

/-- One entry appended to `speed_array` by `import_speed_flows`
(`measurement.py` lines 261-266). -/
structure SpeedEntry where
  direction : String
  thread : Nat
  time : Int
  bytes : Int
deriving DecidableEq, Repr

/-- The `res_details` object of the flow artifact: per direction, a
list of threads, each a list of samples.  A direction absent from the
JSON is `none` (`measurement.py` line 248 skips it). -/
structure ResDetails where
  dl : Option (List (List FlowSample))
  ul : Option (List (List FlowSample))
deriving DecidableEq, Repr

/-- The inner sample loop of `import_speed_flows` (`measurement.py`
lines 255-266): keep a sample only when its timestamp exceeds the last
retained timestamp (initially 0) by more than 30000000 ns. -/
def thinFlow : List FlowSample → Int → List FlowSample
  | [], _ => []
  | s :: rest, last_time =>
    if s.t - last_time > 30000000 then s :: thinFlow rest s.t
    else thinFlow rest last_time

/-- The per-direction thread loop of `import_speed_flows`
(`measurement.py` lines 252-267): thin each thread's series and tag the
retained samples with the direction name and the running thread
index. -/
def tagFlows (d_long : String) : Nat → List (List FlowSample) → List SpeedEntry
  | _, [] => []
  | thread, flow :: rest =>
    (thinFlow flow 0).map (fun s => ⟨d_long, thread, s.t, s.b⟩)
      ++ tagFlows d_long (thread + 1) rest

/-- The `speed_array` built by `import_speed_flows` (`measurement.py`
lines 246-267): the `directions` dict iterates `dl` (as `download`)
then `ul` (as `upload`); an absent direction is skipped. -/
def speed_array (rd : ResDetails) : List SpeedEntry :=
  (match rd.dl with
   | none => []
   | some flows => tagFlows "download" 0 flows)
  ++ (match rd.ul with
      | none => []
      | some flows => tagFlows "upload" 0 flows)

/-- How reading the flow artifact goes (`measurement.py` lines
238-244): the `unxz`/`open`/read step fails with an `OSError`/`IOError`
(`readFail`), or `json.load` fails (`decodeFail` — a
`json.JSONDecodeError`, which the `except (OSError, IOError)` clause
does not catch), or a well-formed artifact is obtained. -/
inductive FlowsRead where
  | readFail
  | decodeFail
  | ok : ResDetails → FlowsRead
deriving DecidableEq, Repr

/-- `SpeedMeasurement.import_speed_flows` (`measurement.py` lines
230-278).  Result: the returned value (`none` embeds Python `None`,
an error embeds an uncaught exception) paired with two booleans
recording whether the `os.remove` cleanup of the flows file and of the
config file was reached.  On `OSError`/`IOError` the function returns
`None` at line 244, before the cleanup block at lines 269-277; on a
JSON decode error the exception propagates, also skipping cleanup. -/
def import_speed_flows (read : FlowsRead) :
    Except Err (Option (List SpeedEntry)) × Bool × Bool :=
  match read with
  | .readFail => (.ok none, false, false)
  | .decodeFail => (.error .jsonDecode, false, false)
  | .ok rd => (.ok (some (speed_array rd)), true, true)

/-- Python `str.split(sep)` for a one-character separator: split at
every occurrence, keeping empty segments (`"}".split("}") == ["",""]`,
`"".split("}") == [""]`). -/
def pySplit (sep : Char) : List Char → List (List Char)
  | [] => [[]]
  | c :: rest =>
    match pySplit sep rest with
    | [] => [[]]
    | seg :: segs =>
      if c = sep then [] :: seg :: segs else (c :: seg) :: segs

/-- Scan a JSON string body up to the closing quote (no escapes occur
in the engine output fields involved). -/
def scanStr : List Char → Option (List Char × List Char)
  | [] => none
  | c :: rest =>
    if c = '"' then some ([], rest)
    else
      match scanStr rest with
      | none => none
      | some (s, r) => some (c :: s, r)

/-- Scan a non-empty run of decimal digits into a `Nat`. -/
def scanNat (cs : List Char) : Option (Nat × List Char) :=
  let ds := cs.takeWhile Char.isDigit
  let rest := cs.dropWhile Char.isDigit
  if ds.isEmpty then none
  else some (ds.foldl (fun n c => 10 * n + (c.toNat - 48)) 0, rest)

/-- Scan the members of a JSON object after the opening brace:
`"key":number` pairs separated by commas, terminated by the closing
brace.  Fuel bounds the recursion. -/
def parseMembers : Nat → List Char → Option (List (String × Nat) × List Char)
  | 0, _ => none
  | fuel + 1, cs =>
    match cs with
    | c0 :: r0 =>
      if c0 = '"' then
        match scanStr r0 with
        | none => none
        | some (key, r1) =>
          match r1 with
          | c1 :: r2 =>
            if c1 = ':' then
              match scanNat r2 with
              | none => none
              | some (n, r3) =>
                match r3 with
                | c3 :: r4 =>
                  if c3 = ',' then
                    match parseMembers fuel r4 with
                    | none => none
                    | some (ms, r) => some ((String.mk key, n) :: ms, r)
                  else if c3 = '\x7d' then some ([(String.mk key, n)], r4)
                  else none
                | [] => none
            else none
          | [] => none
      else none
    | [] => none

/-- `json.loads` restricted to the grammar the engine output exercises
here: a single object of string keys and unsigned integer values with
no whitespace or escapes; trailing data after the object is an error,
as in `json.loads`.  `none` embeds a raised `json.JSONDecodeError`. -/
def loadsObj (s : String) : Option (List (String × Nat)) :=
  match s.toList with
  | c :: rest =>
    if c = '\x7b' then
      match rest with
      | c2 :: r2 =>
        if c2 = '\x7d' then (if r2 = [] then some [] else none)
        else
          match parseMembers (rest.length + 1) rest with
          | none => none
          | some (ms, rest2) => if rest2 = [] then some ms else none
      | [] => none
    else none
  | [] => none

/-- The result-decoding tail of `SpeedMeasurement.measure`
(`measurement.py` lines 203-228), applied to the engine's captured
primary output.  Line 215 computes
`json.loads(test_result.split("}")[1] + "}")`: the segment strictly
between the first and the second `}` of the output, with a `}`
re-appended.  A missing segment is an uncaught `IndexError`; a JSON
decode failure is re-raised as `MeasurementError` (lines 217-221); a
parsed object missing either required throughput field is a
`MeasurementError` (lines 223-226). -/
def speed_measure (test_result : String) : Except Err (List (String × Nat)) :=
  let parts := pySplit '\x7d' test_result.toList
  match parts.get? 1 with
  | none => .error .indexErr
  | some seg =>
    match loadsObj (String.mk (seg ++ ['\x7d'])) with
    | none => .error .measurement
    | some obj =>
      if (obj.lookup "res_dl_throughput_kbps").isNone then .error .measurement
      else if (obj.lookup "res_ul_throughput_kbps").isNone then .error .measurement
      else .ok obj

/-- `get_proto_from_ip` (`netmetr.py` lines 178-191): the
`proto_callback_map` dict iterates IPv6 first, then IPv4; each
successful address-class callback overwrites `ip_proto`.  The
`ipaddress` library calls are abstracted by the validity predicates
`isV6` and `isV4`. -/
def get_proto_from_ip (isV6 isV4 : String → Bool) (ip : String) : Option Protocol :=
  let p1 : Option Protocol := if isV6 ip then some .IPv6 else none
  if isV4 ip then some .IPv4 else p1

/-- `check_addr_is_local` (`netmetr.py` lines 194-203): whether the
socket `bind` succeeds is abstracted by `bind_ok`.  On `OSError` the
code executes `raise ConfigError(f"Cant bind requested address (port
\x7bport\x7d): ...")` — but no variable `port` is in scope, so
evaluating the f-string raises `NameError` instead of the intended
`ConfigError`. -/
def check_addr_is_local (bind_ok : Bool) : Except Err Unit :=
  if bind_ok then .ok () else .error .nameErr

/-- `Netmetr._measure_protocol` (`netmetr.py` lines 154-175).  The
measurement cycle inside the `use_proto` scope (lines 168-175) is
abstracted by `run`; the validation prefix is embedded literally:
both options given raises `ProgrammingError`; an address in neither
address class raises `ConfigError`; a bindable check then runs; with
neither option given, `ConfigError` is raised. -/
def measure_protocol {α : Type} (run : Protocol → Except Err α)
    (proto : Option Protocol) (bind_ip : Option String)
    (isV6 isV4 : String → Bool) (bind_ok : Bool) : Except Err α :=
  match bind_ip with
  | some ip =>
    match proto with
    | some _ => .error .programming
    | none =>
      match get_proto_from_ip isV6 isV4 ip with
      | none => .error .config
      | some ip_proto =>
        match check_addr_is_local bind_ok with
        | .error e => .error e
        | .ok _ => run ip_proto
  | none =>
    match proto with
    | none => .error .config
    | some p => run p

end Netmetr

namespace Netmetr

/-- C1: For every `Mode`, the protocols attempted directly are exactly the
mapped candidate set (`only_4`→[IPv4], `only_6`→[IPv6], `both`→[IPv4, IPv6],
`prefer_4`→[IPv4], `prefer_6`→[IPv6]); the single contingency family (the
one not already tried) is additionally attempted if and only if the mode is
`prefer_4` or `prefer_6` and the direct attempt did not succeed. -/
theorem measure_direct_and_contingency {α : Type} (env : Protocol → AttemptOutcome α) :
    (measure Mode.only_4 env).map Prod.fst = [Protocol.IPv4]
    ∧ (measure Mode.only_6 env).map Prod.fst = [Protocol.IPv6]
    ∧ (measure Mode.both env).map Prod.fst = [Protocol.IPv4, Protocol.IPv6]
    ∧ (measure Mode.prefer_4 env).map Prod.fst =
        (if isSuccess (env Protocol.IPv4) then [Protocol.IPv4]
         else [Protocol.IPv4, Protocol.IPv6])
    ∧ (measure Mode.prefer_6 env).map Prod.fst =
        (if isSuccess (env Protocol.IPv6) then [Protocol.IPv6]
         else [Protocol.IPv6, Protocol.IPv4]) := by
  refine ⟨?_, ?_, ?_, ?_, ?_⟩ <;>
    simp only [measure, proto_map] <;>
    cases h4 : isSuccess (env Protocol.IPv4) <;>
    cases h6 : isSuccess (env Protocol.IPv6) <;>
    simp [h4, h6]

/-- C4, counterexample: a settings response carrying no identity at all
does NOT make bootstrap fail when the caller supplied an existing
identity — `_load_uuid` keeps the caller's uuid and succeeds, contrary
to the claim that such a response fails the call. -/
theorem load_uuid_keeps_existing_counterexample :
    load_uuid (some "abc") (Transport.ok ⟨none, none, none, none⟩)
      = Except.ok ("abc", none, none) := by
  rfl

/-- C4, amended: `_load_uuid` fails (with `ControlServerError`) exactly
when the transport fails, or the JSON payload carries a truthy `error`
field, or the response carries no truthy identity AND the caller
supplied none; when the caller supplied an identity and the error-free
response carries none, bootstrap succeeds and keeps the caller's
identity. -/
theorem load_uuid_failure_spec (old_uuid : Option String) (t : Transport) :
    ((∃ e, load_uuid old_uuid t = .error e) ↔
      t = Transport.fail
        ∨ ∃ r, t = Transport.ok r
            ∧ (truthy r.error = true
               ∨ (truthy r.uuid = false ∧ truthy old_uuid = false)))
    ∧ (∀ r, t = Transport.ok r → truthy old_uuid = true →
        truthy r.uuid = false → truthy r.error = false →
        load_uuid old_uuid t = .ok (old_uuid.getD "", r.urls_ipv4, r.urls_ipv6)) := by
  constructor
  · cases t with
    | fail => simp [load_uuid, send_request]
    | ok r =>
      cases he : truthy r.error <;>
      cases hu : truthy r.uuid <;>
      cases ho : truthy old_uuid <;>
      simp [load_uuid, send_request, he, hu, ho]
  · rintro r rfl ho hu he
    simp [load_uuid, send_request, he, hu, ho]

/-- C4 witness: at a concrete error-free response with no identity and
no supplied identity, bootstrap fails. -/
theorem load_uuid_failure_spec_witness :
    ∃ e, load_uuid none (Transport.ok ⟨none, some "v4.example", none, none⟩)
      = Except.error e :=
  (load_uuid_failure_spec none (Transport.ok ⟨none, some "v4.example", none, none⟩)).1.mpr
    (Or.inr ⟨⟨none, some "v4.example", none, none⟩, rfl, Or.inr ⟨rfl, rfl⟩⟩)

/-- C6: after exiting the `use_proto` scope by any path — normal return
or an error raised by the enclosed operations — the session's active
endpoint equals the dual-stack endpoint it had before entering the
scope (given that, as everywhere in the code, the scope body never
reassigns `url_dual` and the pre-scope active endpoint is the
dual-stack default). -/
theorem use_proto_restores {α ε : Type} (proto : Protocol)
    (body : CSState → Except (ε × CSState) (α × CSState)) (s : CSState)
    (hpre : s.address = some s.url_dual)
    (hdual : ∀ t, (exitState (body t)).url_dual = t.url_dual) :
    (exitState (use_proto proto body s)).address = s.address
    ∧ (exitState (use_proto proto body s)).address
        = some ((exitState (use_proto proto body s)).url_dual) := by
  have hb := hdual (enter_proto proto s)
  cases h : body (enter_proto proto s) with
  | ok v =>
    obtain ⟨a, s2⟩ := v
    rw [h] at hb
    simp [use_proto, h, exitState, restore_proto, hpre]
    simpa [exitState, enter_proto] using hb
  | error v =>
    obtain ⟨e, s2⟩ := v
    rw [h] at hb
    simp [use_proto, h, exitState, restore_proto, hpre]
    simpa [exitState, enter_proto] using hb

/-- C6 witness: a concrete session state and a body that raises; the
active endpoint is restored to the pre-scope dual-stack endpoint. -/
theorem use_proto_restores_witness :
    (exitState (use_proto (α := Unit) (ε := Unit) Protocol.IPv4
        (fun t => Except.error ((), t))
        ⟨"control.netmetr.cz", none, none, some "control.netmetr.cz"⟩)).address
      = some "control.netmetr.cz" :=
  (use_proto_restores Protocol.IPv4 (fun t => Except.error ((), t))
    ⟨"control.netmetr.cz", none, none, some "control.netmetr.cz"⟩
    rfl (fun _ => rfl)).1

/-- C10: if bootstrap left a family's endpoint override absent, entering
the `use_proto` scope for that family sets the active endpoint to the
absent value (not the dual-stack default), so every request URL built
inside the scope names the missing host — Python formats `None` into
the URL. -/
theorem enter_proto_missing_override (proto : Protocol) (s : CSState)
    (habs : proto_url s proto = none) :
    (enter_proto proto s).address = none
    ∧ ∀ path, create_url (enter_proto proto s) true path
        = "https://None/RMBTControlServer/" ++ path := by
  constructor
  · simp [enter_proto, habs]
  · intro path
    simp [create_url, enter_proto, habs, pyStr]

/-- Helper: with no unparsable probe, the probe loop returns exactly
the parsed values. -/
theorem collect_pings_eq_ok (probes : List Probe)
    (h : Probe.unparsable ∉ probes) :
    collect_pings probes = .ok (parsedVals probes) := by
  induction probes with
  | nil => rfl
  | cons p rest ih =>
    cases p with
    | procFail =>
      simp only [List.mem_cons, not_or] at h
      have := ih h.2
      simp only [collect_pings, this, parsedVals, List.filterMap_cons]
    | parsed v =>
      simp only [List.mem_cons, not_or] at h
      have := ih h.2
      simp only [collect_pings, this, parsedVals, List.filterMap_cons]
    | unparsable => simp at h

/-- Helper: an unparsable probe makes the probe loop raise
`MeasurementError`. -/
theorem collect_pings_err (probes : List Probe)
    (h : Probe.unparsable ∈ probes) :
    collect_pings probes = .error .measurement := by
  induction probes with
  | nil => simp at h
  | cons p rest ih =>
    cases p with
    | procFail =>
      simp only [List.mem_cons, reduceCtorEq, false_or] at h
      simp [collect_pings, ih h]
    | parsed v =>
      simp only [List.mem_cons, reduceCtorEq, false_or] at h
      simp [collect_pings, ih h]
    | unparsable => rfl

/-- C3, counterexample: a probe sequence where the first probe parses
to 5000000 ns and the second probe's output cannot be parsed makes the
whole call fail with `MeasurementError`, although the claim says the
unparsable probe is dropped and the minimum (5000000) returned. -/
theorem ping_unparsable_counterexample :
    ping_measure [Probe.parsed 5000000, Probe.unparsable]
        = Except.error Err.measurement
    ∧ ping_measure [Probe.parsed 5000000, Probe.unparsable]
        ≠ Except.ok 5000000 := by
  refine ⟨rfl, fun h => ?_⟩
  have h2 : (Except.error Err.measurement : Except Err Int)
      = Except.ok 5000000 :=
    (rfl : ping_measure [Probe.parsed 5000000, Probe.unparsable]
        = Except.error Err.measurement).symm.trans h
  exact Except.noConfusion h2

/-- C3, amended: in `PingMeasurement.measure`, a probe whose ping
process exits non-zero is dropped without failing the call; a probe
whose output cannot be parsed fails the whole call with
`MeasurementError` immediately; when every zero-exit probe parses, the
call fails with `MeasurementError` exactly when no probe parsed, and
otherwise returns the minimum observed latency of the parsed probes. -/
theorem ping_measure_spec (probes : List Probe) :
    (ping_measure (Probe.procFail :: probes) = ping_measure probes)
    ∧ (Probe.unparsable ∈ probes →
        ping_measure probes = .error .measurement)
    ∧ (Probe.unparsable ∉ probes → parsedVals probes = [] →
        ping_measure probes = .error .measurement)
    ∧ (∀ v vs, Probe.unparsable ∉ probes → parsedVals probes = v :: vs →
        ping_measure probes = .ok (vs.foldl min v)) := by
  refine ⟨rfl, fun h => ?_, fun h hnil => ?_, fun v vs h hcons => ?_⟩
  · simp [ping_measure, collect_pings_err probes h]
  · simp [ping_measure, collect_pings_eq_ok probes h, hnil]
  · simp [ping_measure, collect_pings_eq_ok probes h, hcons]

/-- C3 witness: a dropped failing probe plus two parsed probes yield
the minimum of the parsed values. -/
theorem ping_measure_spec_witness :
    ping_measure [Probe.procFail, Probe.parsed 7000000, Probe.parsed 5000000]
      = Except.ok 5000000 := by
  have h := (ping_measure_spec
      [Probe.procFail, Probe.parsed 7000000, Probe.parsed 5000000]).2.2.2
    7000000 [5000000] (by decide) (by rfl)
  exact h.trans (congrArg Except.ok (by decide))

/-- Helper: every sample retained by `thinFlow` exceeds the initial
`last_time` by more than the minimum delta. -/
theorem thinFlow_mem_gt (l : List FlowSample) (last_time : Int)
    (y : FlowSample) (hy : y ∈ thinFlow l last_time) :
    last_time + 30000000 < y.t := by
  induction l generalizing last_time with
  | nil => simp [thinFlow] at hy
  | cons s rest ih =>
    by_cases hkeep : s.t - last_time > 30000000
    · simp only [thinFlow, if_pos hkeep] at hy
      rcases List.mem_cons.mp hy with rfl | hy'
      · omega
      · have := ih s.t hy'
        omega
    · simp only [thinFlow, if_neg hkeep] at hy
      exact ih last_time hy

/-- Helper: the samples retained by `thinFlow` are pairwise separated
by more than the minimum delta, in order. -/
theorem thinFlow_pairwise (l : List FlowSample) (last_time : Int) :
    (thinFlow l last_time).Pairwise (fun a b => a.t + 30000000 < b.t) := by
  induction l generalizing last_time with
  | nil => simp [thinFlow]
  | cons s rest ih =>
    by_cases hkeep : s.t - last_time > 30000000
    · simp only [thinFlow, if_pos hkeep]
      exact List.Pairwise.cons (fun y hy => thinFlow_mem_gt rest s.t y hy)
        (ih s.t)
    · simp only [thinFlow, if_neg hkeep]
      exact ih last_time

/-- Helper: every entry tagged by `tagFlows` carries the given
direction and a thread index at least the starting index. -/
theorem tagFlows_mem (d_long : String) (n : Nat)
    (flows : List (List FlowSample)) (y : SpeedEntry)
    (hy : y ∈ tagFlows d_long n flows) :
    y.direction = d_long ∧ n ≤ y.thread := by
  induction flows generalizing n with
  | nil => simp [tagFlows] at hy
  | cons flow rest ih =>
    simp only [tagFlows, List.mem_append, List.mem_map] at hy
    rcases hy with ⟨s, _, rfl⟩ | hy'
    · exact ⟨rfl, Nat.le_refl n⟩
    · have := ih (n + 1) hy'
      exact ⟨this.1, Nat.le_of_succ_le this.2⟩

/-- The thinning invariant relation: two retained entries of the same
direction and thread are at least the minimum delta apart. -/
def thinApart (a b : SpeedEntry) : Prop :=
  a.direction = b.direction → a.thread = b.thread → 30000000 ≤ b.time - a.time

/-- Helper: entries produced by `tagFlows` satisfy the thinning
invariant pairwise. -/
theorem tagFlows_pairwise (d_long : String) (n : Nat)
    (flows : List (List FlowSample)) :
    (tagFlows d_long n flows).Pairwise thinApart := by
  induction flows generalizing n with
  | nil => simp [tagFlows]
  | cons flow rest ih =>
    simp only [tagFlows]
    rw [List.pairwise_append]
    refine ⟨?_, ih (n + 1), ?_⟩
    · rw [List.pairwise_map]
      refine (thinFlow_pairwise flow 0).imp ?_
      intro a b hab
      intro _ _
      simp only
      omega
    · intro a ha b hb
      obtain ⟨s, _, rfl⟩ := List.mem_map.mp ha
      have hb' := tagFlows_mem d_long (n + 1) rest b hb
      intro _ hth
      exfalso
      simp only at hth
      omega

/-- C7: for every flow artifact processed by `import_speed_flows`, any
two retained samples of the same direction and thread have timestamps
at least 30000000 ns apart (the later minus the earlier, in retained
order), however dense the raw input samples are. -/
theorem speed_flows_thinning (read : FlowsRead)
    (entries : List SpeedEntry) (cleanup : Bool × Bool)
    (h : import_speed_flows read = (.ok (some entries), cleanup)) :
    entries.Pairwise thinApart := by
  cases read with
  | readFail => simp [import_speed_flows] at h
  | decodeFail => simp [import_speed_flows] at h
  | ok rd =>
    simp only [import_speed_flows, Prod.mk.injEq, Except.ok.injEq,
      Option.some.injEq] at h
    obtain ⟨rfl, -⟩ := h
    unfold speed_array
    rw [List.pairwise_append]
    refine ⟨?_, ?_, ?_⟩
    · cases rd.dl with
      | none => simp
      | some flows => exact tagFlows_pairwise "download" 0 flows
    · cases rd.ul with
      | none => simp
      | some flows => exact tagFlows_pairwise "upload" 0 flows
    · intro a ha b hb
      cases hdl : rd.dl with
      | none => rw [hdl] at ha; simp at ha
      | some dlf =>
        cases hul : rd.ul with
        | none => rw [hul] at hb; simp at hb
        | some ulf =>
          rw [hdl] at ha
          rw [hul] at hb
          have ha' := (tagFlows_mem "download" 0 dlf a ha).1
          have hb' := (tagFlows_mem "upload" 0 ulf b hb).1
          intro hdir
          rw [ha', hb'] at hdir
          exact absurd hdir (by decide)

/-- C7 witness: a concrete dense artifact; its retained entries satisfy
the invariant. -/
theorem speed_flows_thinning_witness :
    (speed_array ⟨some [[⟨40000000, 10⟩, ⟨50000000, 20⟩, ⟨80000001, 30⟩]], none⟩).Pairwise
      thinApart :=
  speed_flows_thinning
    (FlowsRead.ok ⟨some [[⟨40000000, 10⟩, ⟨50000000, 20⟩, ⟨80000001, 30⟩]], none⟩)
    (speed_array ⟨some [[⟨40000000, 10⟩, ⟨50000000, 20⟩, ⟨80000001, 30⟩]], none⟩)
    (true, true) rfl

/-- C8, counterexample: when the flow artifact cannot be read
(`OSError`), `import_speed_flows` returns `None` without reaching
either `os.remove` cleanup call, although the claim says the temporary
artifacts are removed on every exit path. -/
theorem import_speed_flows_skips_cleanup_counterexample :
    import_speed_flows FlowsRead.readFail
      = (Except.ok none, false, false) := rfl

/-- C8, amended: `import_speed_flows` removes the temporary artifacts
(flow-sample file and engine config file) only on the path where the
artifact was read and decoded: on `OSError`/`IOError` it returns `None`
before the cleanup block, and on a JSON decode failure the exception
propagates, also skipping cleanup. -/
theorem import_speed_flows_cleanup_spec :
    (∀ rd, import_speed_flows (FlowsRead.ok rd)
        = (.ok (some (speed_array rd)), true, true))
    ∧ import_speed_flows FlowsRead.readFail = (.ok none, false, false)
    ∧ import_speed_flows FlowsRead.decodeFail
        = (.error .jsonDecode, false, false) :=
  ⟨fun _ => rfl, rfl, rfl⟩

/-- C10 witness: concrete state with no IPv6 override; the URL for the
`testRequest` path is built against host `None`. -/
theorem enter_proto_missing_override_witness :
    create_url (enter_proto Protocol.IPv6
        ⟨"control.netmetr.cz", some "v4.example", none, some "control.netmetr.cz"⟩)
      true "testRequest"
      = "https://None/RMBTControlServer/testRequest" :=
  (enter_proto_missing_override Protocol.IPv6
    ⟨"control.netmetr.cz", some "v4.example", none, some "control.netmetr.cz"⟩
    rfl).2 "testRequest"

/-- C2, counterexample: on engine output consisting of a non-JSON
preamble with no `}` of its own directly followed by the JSON object
`\x7b"res_dl_throughput_kbps":500,"res_ul_throughput_kbps":200\x7d`,
the parse takes the segment between the first and the second `}`, which
is empty, so `json.loads` receives `"\x7d"` and the call fails with
`MeasurementError` — it does not yield the claimed SpeedResult. -/
theorem speed_parse_preamble_counterexample :
    speed_measure
        "garbage\x7b\"res_dl_throughput_kbps\":500,\"res_ul_throughput_kbps\":200\x7d"
      = Except.error Err.measurement
    ∧ speed_measure
        "garbage\x7b\"res_dl_throughput_kbps\":500,\"res_ul_throughput_kbps\":200\x7d"
      ≠ Except.ok [("res_dl_throughput_kbps", 500), ("res_ul_throughput_kbps", 200)] := by
  refine ⟨rfl, fun h => ?_⟩
  have h2 : (Except.error Err.measurement :
        Except Err (List (String × Nat)))
      = Except.ok [("res_dl_throughput_kbps", 500), ("res_ul_throughput_kbps", 200)] :=
    (rfl : speed_measure
        "garbage\x7b\"res_dl_throughput_kbps\":500,\"res_ul_throughput_kbps\":200\x7d"
      = Except.error Err.measurement).symm.trans h
  exact Except.noConfusion h2

/-- C2, amended: the speed-measurement parse takes the segment strictly
between the first and the second `}` of the engine output and
re-appends `}`; hence an output whose non-JSON preamble itself ends
with a `}`, followed by the JSON object with both required throughput
fields, parses to a valid result with download throughput 500 kbps and
upload throughput 200 kbps. -/
theorem speed_parse_amended :
    speed_measure
        "garbage\x7d\x7b\"res_dl_throughput_kbps\":500,\"res_ul_throughput_kbps\":200\x7d"
      = Except.ok [("res_dl_throughput_kbps", 500), ("res_ul_throughput_kbps", 200)]
    ∧ List.lookup "res_dl_throughput_kbps"
        [("res_dl_throughput_kbps", (500 : Nat)), ("res_ul_throughput_kbps", 200)]
      = some 500
    ∧ List.lookup "res_ul_throughput_kbps"
        [("res_dl_throughput_kbps", (500 : Nat)), ("res_ul_throughput_kbps", 200)]
      = some 200 := by
  refine ⟨rfl, rfl, rfl⟩

/-- C5: every attempted family's outcome is recorded in the result map
regardless of outcome (success as the report, `ControlServerError` as
"Not available", `MeasurementError` as "Failed"), one family's failure
does not abort the loop over families, and a family never attempted is
absent; in particular, under `prefer_6` with the IPv6 attempt failing
on `ControlServerError` and the IPv4 contingency succeeding, the
result is exactly `[(IPv6, notAvailable), (IPv4, report r)]`. -/
theorem measure_records_outcomes {α : Type} :
    (∀ (env : Protocol → AttemptOutcome α) (r : α),
      env Protocol.IPv6 = .ctrlErr → env Protocol.IPv4 = .success r →
      measure Mode.prefer_6 env
        = [(Protocol.IPv6, .notAvailable), (Protocol.IPv4, .report r)])
    ∧ (∀ (m : Mode) (env : Protocol → AttemptOutcome α)
        (p : Protocol) (e : ResultEntry α),
        (p, e) ∈ measure m env → e = entryOf (env p))
    ∧ (∀ env : Protocol → AttemptOutcome α,
        (measure Mode.both env).map Prod.fst = [Protocol.IPv4, Protocol.IPv6]) := by
  refine ⟨?_, ?_, ?_⟩
  · intro env r h6 h4
    simp [measure, proto_map, h6, h4, isSuccess, entryOf]
  · intro m env p e h
    have hall : ∀ x ∈ measure m env, Prod.snd x = entryOf (env x.1) := by
      cases m <;>
        cases hs4 : isSuccess (env Protocol.IPv4) <;>
        cases hs6 : isSuccess (env Protocol.IPv6) <;>
        simp [measure, proto_map, hs4, hs6]
    exact hall (p, e) h
  · intro env
    cases hs4 : isSuccess (env Protocol.IPv4) <;>
      cases hs6 : isSuccess (env Protocol.IPv6) <;>
      simp [measure, proto_map, hs4, hs6]

/-- C5 witness: the concrete `prefer_6` scenario. -/
theorem measure_records_outcomes_witness :
    measure Mode.prefer_6
        (fun p => match p with
          | Protocol.IPv4 => AttemptOutcome.success ()
          | Protocol.IPv6 => AttemptOutcome.ctrlErr)
      = [(Protocol.IPv6, ResultEntry.notAvailable),
         (Protocol.IPv4, ResultEntry.report ())] :=
  (measure_records_outcomes (α := Unit)).1
    (fun p => match p with
      | Protocol.IPv4 => AttemptOutcome.success ()
      | Protocol.IPv6 => AttemptOutcome.ctrlErr)
    () rfl rfl

/-- C9, counterexample: invoking the orchestration layer with
conflicting selection parameters (both a protocol family and a bind
address) raises `ProgrammingError`, not the `ConfigError` the claim
names. -/
theorem measure_protocol_conflict_counterexample :
    measure_protocol (fun _ => Except.ok (0 : Nat)) (some Protocol.IPv4)
        (some "192.0.2.1") (fun _ => false) (fun _ => true) true
      = Except.error Err.programming
    ∧ measure_protocol (fun _ => Except.ok (0 : Nat)) (some Protocol.IPv4)
        (some "192.0.2.1") (fun _ => false) (fun _ => true) true
      ≠ Except.error Err.config := by
  refine ⟨rfl, fun h => ?_⟩
  have h2 : (Except.error Err.programming : Except Err Nat)
      = Except.error Err.config :=
    (rfl : measure_protocol (fun _ => Except.ok (0 : Nat)) (some Protocol.IPv4)
        (some "192.0.2.1") (fun _ => false) (fun _ => true) true
      = Except.error Err.programming).symm.trans h
  exact absurd (Except.error.inj h2) (by decide)

/-- C9, amended: invalid input to the orchestration layer is always
fatal, but with three distinct error kinds: a bind address that is not
a valid IPv4 or IPv6 address fails with `ConfigError`; conflicting
selection parameters (both a protocol family and a bind address) fail
with `ProgrammingError`; and a valid bind address that cannot be
locally bound takes the intended `ConfigError` branch but actually
raises `NameError`, because the error message references the undefined
name `port`.  None of these inputs is retried or defaulted (the
measurement cycle `run` is never invoked). -/
theorem measure_protocol_error_spec {α : Type} (run : Protocol → Except Err α)
    (isV6 isV4 : String → Bool) (bind_ok : Bool) (ip : String) (p : Protocol) :
    measure_protocol run (some p) (some ip) isV6 isV4 bind_ok
        = Except.error Err.programming
    ∧ (isV6 ip = false → isV4 ip = false →
        measure_protocol run none (some ip) isV6 isV4 bind_ok
          = Except.error Err.config)
    ∧ (get_proto_from_ip isV6 isV4 ip ≠ none →
        measure_protocol run none (some ip) isV6 isV4 false
          = Except.error Err.nameErr) := by
  refine ⟨rfl, fun h6 h4 => ?_, fun hv => ?_⟩
  · simp [measure_protocol, get_proto_from_ip, h6, h4]
  · obtain ⟨q, hq⟩ := Option.ne_none_iff_exists'.mp hv
    simp [measure_protocol, hq, check_addr_is_local]

/-- C9 witness: concrete invalid-address and unbindable-address
inputs. -/
theorem measure_protocol_error_spec_witness :
    measure_protocol (fun _ => Except.ok (0 : Nat)) none (some "nonsense")
        (fun _ => false) (fun _ => false) true
      = Except.error Err.config
    ∧ measure_protocol (fun _ => Except.ok (0 : Nat)) none (some "10.0.0.9")
        (fun _ => false) (fun _ => true) false
      = Except.error Err.nameErr :=
  ⟨(measure_protocol_error_spec (fun _ => Except.ok (0 : Nat))
      (fun _ => false) (fun _ => false) true "nonsense" Protocol.IPv4).2.1 rfl rfl,
   (measure_protocol_error_spec (fun _ => Except.ok (0 : Nat))
      (fun _ => false) (fun _ => true) false "10.0.0.9" Protocol.IPv4).2.2
     (by decide)⟩

end Netmetr
